import Mathlib

/-!
Verification of the refresh-coordination subsystem of `just-auth`.

Shallow embedding of:
- `src/utils/refreshQueue.ts` (`RefreshQueue`): single-flight queue under the
  JavaScript event-loop model (each `add` call runs synchronously up to the
  `await this.refreshPromise` suspension point; promise continuations run
  atomically when the awaited promise settles);
- `src/client/apiClient.ts` (`ApiClient`): the response interceptor and
  `refreshToken`;
- `src/utils/tokenManager.ts` (`TokenManager`, `defaultStorageStrategy`);
- `src/auth-context.tsx` (`logout`, the init effect, `isAuthenticated`).

JavaScript truthiness of `string | null` values (empty string is falsy) is
modelled explicitly by `jsTruthy`.
-/

namespace JustAuth

/-- Outcome of the refresh promise: resolution with a token or rejection with
an error (errors are modelled as opaque strings). -/
inductive Outcome where
  | success (token : String)
  | failure (err : String)
  deriving Repr, DecidableEq

/-- The mutable fields of `RefreshQueue` (src/utils/refreshQueue.ts, lines
8-10): `isRefreshing`, whether `refreshPromise` is non-null, and the queue of
waiters. Waiters are identified by the caller id that pushed them; in the code
a waiter is its `{resolve, reject}` callback pair. -/
structure RQState where
  isRefreshing : Bool
  refreshPromise : Bool
  queue : List Nat
  deriving Repr, DecidableEq

/-- Initial (`Idle`) state of a freshly constructed `RefreshQueue`. -/
def RQState.idle : RQState := ⟨false, false, []⟩

/-- A run of the queue: the current state plus instrumentation recording how
often a supplied `refreshFn` was invoked and which callers invoked one (the
callers whose `add` call took the "start refreshing" branch). -/
structure RQRun where
  st : RQState
  invocations : Nat
  initiators : List Nat
  deriving Repr, DecidableEq

/-- A run starting from an idle queue with nothing invoked yet. -/
def RQRun.idle : RQRun := ⟨RQState.idle, 0, []⟩

/-- The synchronous prefix of `RefreshQueue.add` (lines 17-27): if
`isRefreshing && refreshPromise` the caller pushes a waiter onto the queue and
suspends; otherwise it sets `isRefreshing = true`, creates the refresh promise
(invoking `refreshFn`), and suspends awaiting it. Under the event-loop model
this prefix runs atomically. -/
def arrive (r : RQRun) (c : Nat) : RQRun :=
  if r.st.isRefreshing && r.st.refreshPromise then
    { r with st := { r.st with queue := r.st.queue ++ [c] } }
  else
    { st := { isRefreshing := true, refreshPromise := true, queue := r.st.queue },
      invocations := r.invocations + 1,
      initiators := r.initiators ++ [c] }

/-- A group of callers arriving one after another (each running its
synchronous prefix atomically, in this order). -/
def arriveAll (r : RQRun) (cs : List Nat) : RQRun :=
  List.foldl arrive r cs

/-- The continuation of `add` once `refreshPromise` settles with outcome `o`
(lines 29-38): on success `processQueue` resolves every queued waiter with the
new token and the initiator returns it; on failure `processQueueError` rejects
every queued waiter with the error and the initiator rethrows it; in both
cases `reset` (lines 69-73) then restores the idle state. Returns the new run
and the list of (caller, outcome) settlements, waiters first in arrival order,
then the initiators. -/
def settle (r : RQRun) (o : Outcome) : RQRun × List (Nat × Outcome) :=
  (⟨RQState.idle, r.invocations, []⟩,
   r.st.queue.map (fun c => (c, o)) ++ r.initiators.map (fun c => (c, o)))

/-! ### TokenManager and storage (src/utils/tokenManager.ts) -/

/-- JavaScript truthiness of a `string | null` value: `null` and the empty
string are falsy, every other string is truthy. -/
def jsTruthy : Option String → Bool
  | none => false
  | some s => !(s == "")

/-- A key-value storage backend's visible contents: `get` by key. -/
def KVStore : Type := String → Option String

/-- Models `set(key, value)` on a key-value store. -/
def kvSet (st : KVStore) (k v : String) : KVStore :=
  fun k2 => if k2 == k then some v else st k2

/-- Models `clear(key)` on a key-value store. -/
def kvClear (st : KVStore) (k : String) : KVStore :=
  fun k2 => if k2 == k then none else st k2

/-- An empty storage backend. -/
def kvEmpty : KVStore := fun _ => none

/-- Models `TokenManager.ACCESS_TOKEN_KEY` (line 156). -/
def ACCESS_TOKEN_KEY : String := "auth_access_token"

/-- Models `TokenManager.REFRESH_TOKEN_KEY` (line 157). -/
def REFRESH_TOKEN_KEY : String := "auth_refresh_token"

/-- Models `TokenManager.getAccessToken()`: read the access key from the backend. -/
def getAccessToken (st : KVStore) : Option String :=
  st ACCESS_TOKEN_KEY

/-- Models `TokenManager.getRefreshToken()`: read the refresh key from the backend. -/
def getRefreshToken (st : KVStore) : Option String :=
  st REFRESH_TOKEN_KEY

/-- Models `TokenManager.setTokens(access, refresh)`: write the access key, then the
refresh key (two sequential backend writes, in this order). -/
def setTokens (st : KVStore) (a r : String) : KVStore :=
  kvSet (kvSet st ACCESS_TOKEN_KEY a) REFRESH_TOKEN_KEY r

/-- Models `TokenManager.setAccessToken(access)`: write only the access key. -/
def setAccessToken (st : KVStore) (a : String) : KVStore :=
  kvSet st ACCESS_TOKEN_KEY a

/-- Models `TokenManager.clearTokens()`: clear both keys. -/
def clearTokens (st : KVStore) : KVStore :=
  kvClear (kvClear st ACCESS_TOKEN_KEY) REFRESH_TOKEN_KEY

/-- Models `TokenManager.hasTokens()`: `!!(getAccessToken() && getRefreshToken())` —
JS truthiness, so an empty-string token makes this false. -/
def hasTokens (st : KVStore) : Bool :=
  jsTruthy (getAccessToken st) && jsTruthy (getRefreshToken st)

/-- The token-update step of `ApiClient.refreshToken` on a successful renewal
response (src/client/apiClient.ts lines 112-119): destructure
`{accessToken, refreshToken: newRefreshToken}`; `if (newRefreshToken)` (JS
truthiness) call `setTokens(accessToken, newRefreshToken)`, else
`setAccessToken(accessToken)`. -/
def applyRefreshResponse (st : KVStore) (newAccess : String)
    (newRefresh : Option String) : KVStore :=
  if jsTruthy newRefresh then
    setTokens st newAccess (newRefresh.getD "")
  else
    setAccessToken st newAccess

/-! ### A storage backend whose writes can fail (`StorageError`) -/

/-- A backend state together with the set of keys whose `set` currently
throws a `StorageError`. The data reflects what `get` observes. -/
structure FStore where
  data : KVStore
  failSet : String → Bool

/-- One backend `set` call that may throw: if the key's write fails the
backing data is unchanged and the call reports failure, otherwise the write
lands. -/
def fSet (st : FStore) (k v : String) : FStore × Bool :=
  if st.failSet k then (st, false)
  else ({ st with data := kvSet st.data k v }, true)

/-- Models `TokenManager.setTokens` over a throwing backend: the access write runs
first; only if it returned (did not throw) does the refresh write run — an
exception from either write propagates to the caller, but mutations already
performed persist. Returns the final backend state and whether the whole call
completed without throwing. -/
def setTokensF (st : FStore) (a r : String) : FStore × Bool :=
  let s1 := fSet st ACCESS_TOKEN_KEY a
  if s1.2 then
    let s2 := fSet s1.1 REFRESH_TOKEN_KEY r
    (s2.1, s2.2)
  else
    (s1.1, false)

/-! ### ApiClient response interceptor (src/client/apiClient.ts lines 57-94) -/

/-- The facts the response interceptor's error handler inspects: the HTTP
status of `error.response` (absent for network errors), the request's
`_retry` mark, and whether `tokenManager.getRefreshToken()` is truthy. -/
structure ErrorCtx where
  status : Option Nat
  retryFlag : Bool
  refreshTokenPresent : Bool
  deriving Repr, DecidableEq

/-- What the error handler decides to do with a failed response. -/
inductive InterceptAction where
  | attemptRefresh
  | propagateRaw
  deriving Repr, DecidableEq

/-- The guard at lines 63-67: enter the refresh branch iff
`error.response?.status === 401 && !originalRequest._retry &&
this.tokenManager.getRefreshToken()`; otherwise `return
Promise.reject(error)` (line 92). -/
def interceptDecision (c : ErrorCtx) : InterceptAction :=
  if c.status == some 401 && !c.retryFlag && c.refreshTokenPresent then
    InterceptAction.attemptRefresh
  else
    InterceptAction.propagateRaw

/-- The final settlement of one intercepted request. -/
inductive FinalOutcome where
  /-- Renewal succeeded: the original request was resent once with
  `Authorization: Bearer token`; that resend's response is returned. -/
  | retriedResponse (token : String)
  /-- Renewal failed: the call rejects with the constructed
  `Authentication failed. Please login again.` error. -/
  | authFailure
  /-- The handler rejected with the original (raw) error unchanged. -/
  | rawError
  deriving Repr, DecidableEq

/-- Per-request observable effects of one pass through the error handler. -/
structure InterceptResult where
  outcome : FinalOutcome
  clearedTokens : Bool
  callbackInvoked : Bool
  deriving Repr, DecidableEq

/-- One pass of the response-error handler for a single request, given the
outcome the refresh queue delivered to it (irrelevant when the guard fails):
on `attemptRefresh` + success, re-attach the token and resend (lines 72-78);
on `attemptRefresh` + failure, the catch block (lines 79-89) clears tokens,
builds the auth error, invokes `onAuthError` when configured, and rejects
with the auth error; on a failed guard, reject with the raw error, touching
nothing. -/
def interceptOne (c : ErrorCtx) (delivered : Outcome) (hasCallback : Bool) :
    InterceptResult :=
  match interceptDecision c with
  | InterceptAction.propagateRaw =>
      ⟨FinalOutcome.rawError, false, false⟩
  | InterceptAction.attemptRefresh =>
      match delivered with
      | Outcome.success t => ⟨FinalOutcome.retriedResponse t, false, false⟩
      | Outcome.failure _ => ⟨FinalOutcome.authFailure, true, hasCallback⟩

/-- N concurrent requests that all received a 401, none yet retried, with a
refresh token present: each enters the refresh branch and calls
`refreshQueue.add`; the group runs through the single-flight queue and the
one refresh settles with outcome `o`; every request then finishes its own
pass of the handler with the outcome it was delivered. Returns the refresh
invocation count and the per-request results. -/
def concurrent401s (n : Nat) (o : Outcome) (hasCallback : Bool) :
    Nat × List InterceptResult :=
  let r := arriveAll RQRun.idle (List.range n)
  let s := settle r o
  (s.1.invocations,
   s.2.map (fun d =>
     interceptOne ⟨some 401, false, true⟩ d.2 hasCallback))

/-! ### Session controller (src/auth-context.tsx) -/

/-- A network side effect: an HTTP request issued through the transport. -/
inductive NetEffect where
  | post (url : String)
  deriving Repr, DecidableEq

/-- The session state the provider holds: the backing token store, the `user`
state (modelled by its id), and the `error` state. -/
structure Session where
  store : KVStore
  user : Option String
  error : Option String

/-- Models `logout` (src/auth-context.tsx lines 119-123): `clearTokens()`,
`setUser(null)`, `setError(null)`. The body is synchronous (not `async`) and
issues no transport call, so its effect list is empty. -/
def logout (s : Session) : Session × List NetEffect :=
  ({ store := clearTokens s.store, user := none, error := none }, [])

/-- Models `isAuthenticated` (line 135): `!!user && !!tokenManager.getAccessToken()`. -/
def isAuthenticated (s : Session) : Bool :=
  s.user.isSome && jsTruthy (getAccessToken s.store)

/-- The init effect's `initializeAuth` body (src/auth-context.tsx lines
66-89): if `tokenManager.hasTokens()`, set the placeholder user; otherwise
the user stays `null`. Returns the resulting `user` state. -/
def initAuthUser (st : KVStore) : Option String :=
  if hasTokens st then some "user" else none

/-! ### defaultStorageStrategy (src/utils/tokenManager.ts lines 135-150) -/

/-- The runtime environment the default strategy probes: whether a `window`
object exists, and the `localStorage` contents. -/
structure Env where
  hasWindow : Bool
  localStorage : KVStore

/-- Models `defaultStorageStrategy.get`: `if (typeof window === 'undefined') return
null; return localStorage.getItem(key)`. Total — never throws. -/
def dssGet (e : Env) (k : String) : Option String :=
  if e.hasWindow then e.localStorage k else none

/-- Models `defaultStorageStrategy.set`: without a window, return without writing;
otherwise `localStorage.setItem(key, value)`. Total — never throws. -/
def dssSet (e : Env) (k v : String) : Env :=
  if e.hasWindow then { e with localStorage := kvSet e.localStorage k v } else e

/-- Models `defaultStorageStrategy.clear`: without a window, return without writing;
otherwise `localStorage.removeItem(key)`. Total — never throws. -/
def dssClear (e : Env) (k : String) : Env :=
  if e.hasWindow then { e with localStorage := kvClear e.localStorage k } else e

/-! ### Queue lemmas -/

/-- Arriving while a refresh is in flight only appends the caller to the
waiter queue. -/
lemma arriveAll_inFlight (cs : List Nat) (q : List Nat) (inv : Nat)
    (ini : List Nat) :
    arriveAll ⟨⟨true, true, q⟩, inv, ini⟩ cs = ⟨⟨true, true, q ++ cs⟩, inv, ini⟩ := by
  induction cs generalizing q with
  | nil => simp [arriveAll]
  | cons c cs ih =>
      have harr : arrive ⟨⟨true, true, q⟩, inv, ini⟩ c =
          ⟨⟨true, true, q ++ [c]⟩, inv, ini⟩ := by
        simp [arrive]
      rw [arriveAll, List.foldl_cons, harr]
      have := ih (q ++ [c])
      rw [arriveAll] at this
      rw [this]
      simp

/-- A nonempty group of callers arriving at an idle queue: the first starts
the refresh (one invocation), the rest queue as waiters in order. -/
lemma arriveAll_cons_idle (c0 : Nat) (rest : List Nat) :
    arriveAll RQRun.idle (c0 :: rest) = ⟨⟨true, true, rest⟩, 1, [c0]⟩ := by
  have h0 : arrive RQRun.idle c0 = ⟨⟨true, true, []⟩, 1, [c0]⟩ := by
    simp [arrive, RQRun.idle, RQState.idle]
  rw [arriveAll, List.foldl_cons, h0]
  have := arriveAll_inFlight rest [] 1 [c0]
  rw [arriveAll] at this
  rw [this]
  simp

/-- The per-request results of the concurrent-401 scenario are `n` copies of
one pass of the handler at the delivered outcome. -/
lemma concurrent401s_results (n : Nat) (o : Outcome) (hc : Bool) :
    (concurrent401s n o hc).2 =
      List.replicate n (interceptOne ⟨some 401, false, true⟩ o hc) := by
  cases n with
  | zero => rfl
  | succ m =>
      rw [concurrent401s, List.range_succ_eq_map, arriveAll_cons_idle]
      simp [settle, List.map_map, Function.comp_def, List.map_const']
      rw [List.replicate_succ']

/-- In the concurrent-401 scenario with at least one request, the refresh
function is invoked exactly once. -/
lemma concurrent401s_invocations (n : Nat) (o : Outcome) (hc : Bool)
    (hn : 0 < n) :
    (concurrent401s n o hc).1 = 1 := by
  cases n with
  | zero => exact absurd hn (by simp)
  | succ m =>
      rw [concurrent401s, List.range_succ_eq_map, arriveAll_cons_idle]
      simp [settle]

/-! ### Claims -/

/-- C1 (confirmed). Single-flight: when a group of callers `c0 :: rest`
arrives at an idle `RefreshQueue` before the refresh settles, the supplied
refresh function is invoked exactly once for the whole group, and when the
one refresh settles with outcome `o`, every caller of the group settles with
exactly that outcome: there are as many settlements as callers, every
settlement carries `o`, and every caller receives `o`. -/
theorem single_flight_same_outcome (c0 : Nat) (rest : List Nat) (o : Outcome) :
    (arriveAll RQRun.idle (c0 :: rest)).invocations = 1 ∧
    (settle (arriveAll RQRun.idle (c0 :: rest)) o).2.length = (c0 :: rest).length ∧
    (∀ p ∈ (settle (arriveAll RQRun.idle (c0 :: rest)) o).2, p.2 = o) ∧
    (∀ w ∈ c0 :: rest, (w, o) ∈ (settle (arriveAll RQRun.idle (c0 :: rest)) o).2) := by
  rw [arriveAll_cons_idle]
  refine ⟨rfl, ?_, ?_, ?_⟩
  · simp [settle]
  · intro p hp
    simp [settle] at hp
    rcases hp with ⟨a, _, h⟩ | h
    · simp [← h]
    · simp [h]
  · intro w hw
    simp at hw
    rcases hw with h | h <;> simp [settle, h]

/-- Witness for C1 at the concrete group `[7, 8, 9]` and a successful
refresh. -/
theorem single_flight_same_outcome_witness :
    (arriveAll RQRun.idle [7, 8, 9]).invocations = 1 ∧
    (settle (arriveAll RQRun.idle [7, 8, 9]) (Outcome.success "T2")).2.length = 3 ∧
    (8, Outcome.success "T2") ∈
      (settle (arriveAll RQRun.idle [7, 8, 9]) (Outcome.success "T2")).2 := by
  obtain ⟨h1, h2, _, h4⟩ := single_flight_same_outcome 7 [8, 9] (Outcome.success "T2")
  exact ⟨h1, h2, h4 8 (by simp)⟩

/-- C4 (confirmed). After the refresh settles — success or failure — the
queue state is back to `Idle` (`isRefreshing` false, no stored promise, empty
waiter list), and a subsequent independent arrival starts a fresh cycle: it
invokes the refresh function anew and becomes the sole initiator. -/
theorem reset_to_idle_after_settle (c0 : Nat) (rest : List Nat) (o : Outcome)
    (c1 : Nat) :
    (settle (arriveAll RQRun.idle (c0 :: rest)) o).1.st = RQState.idle ∧
    (arrive (settle (arriveAll RQRun.idle (c0 :: rest)) o).1 c1).invocations =
      (settle (arriveAll RQRun.idle (c0 :: rest)) o).1.invocations + 1 ∧
    (arrive (settle (arriveAll RQRun.idle (c0 :: rest)) o).1 c1).initiators = [c1] := by
  rw [arriveAll_cons_idle]
  refine ⟨rfl, ?_, ?_⟩ <;> simp [settle, arrive, RQState.idle]

/-- C5 (confirmed). A request already carrying the `_retry` mark that fails
again is never routed into another renewal cycle: the interceptor's guard
rejects it (`propagateRaw`), and the pass over such a request produces the
raw error with no token clearing and no callback — the retried send's
response is the final outcome. This holds for every status (including 401)
and regardless of whether a refresh token is present. -/
theorem no_second_renewal_for_retried (st : Option Nat) (rt : Bool)
    (d : Outcome) (hc : Bool) :
    interceptDecision ⟨st, true, rt⟩ = InterceptAction.propagateRaw ∧
    interceptOne ⟨st, true, rt⟩ d hc =
      ⟨FinalOutcome.rawError, false, false⟩ := by
  constructor <;> simp [interceptDecision, interceptOne]

/-- C10 (confirmed). In a window-less (server-side) environment the default
storage strategy is a total no-op: `get` returns null, `set` and `clear`
return with the environment unchanged, for every key and value; all three
are total functions (they never throw). -/
theorem server_side_storage_noop (ls : KVStore) (k v : String) :
    dssGet ⟨false, ls⟩ k = none ∧
    dssSet ⟨false, ls⟩ k v = ⟨false, ls⟩ ∧
    dssClear ⟨false, ls⟩ k = ⟨false, ls⟩ :=
  ⟨rfl, rfl, rfl⟩

/-- C2 counterexample. With three concurrent requests failing on a 401 and
the single renewal attempt failing, the configured error callback does not
fire exactly once: each request's own catch block invokes it, so it fires
three times. -/
theorem error_callback_once_counterexample :
    ¬ ((concurrent401s 3 (Outcome.failure "boom") true).2.countP
        (fun r => r.callbackInvoked) = 1) := by
  decide

/-- C2 (amended). For a terminal renewal failure with `n ≥ 1` concurrent
requests waiting, the renewal function runs once, every request fails with
the constructed `AuthenticationError` and clears the stored credentials, and
the configured error callback is invoked once per request — `n` times in
total, not once overall. -/
theorem error_callback_per_request (n : Nat) (hn : 0 < n) (e : String) :
    (concurrent401s n (Outcome.failure e) true).1 = 1 ∧
    (concurrent401s n (Outcome.failure e) true).2.length = n ∧
    (concurrent401s n (Outcome.failure e) true).2.countP
      (fun r => r.callbackInvoked) = n ∧
    ∀ r ∈ (concurrent401s n (Outcome.failure e) true).2,
      r = ⟨FinalOutcome.authFailure, true, true⟩ := by
  have hres := concurrent401s_results n (Outcome.failure e) true
  have hone : interceptOne ⟨some 401, false, true⟩ (Outcome.failure e) true =
      ⟨FinalOutcome.authFailure, true, true⟩ := rfl
  refine ⟨concurrent401s_invocations n (Outcome.failure e) true hn, ?_, ?_, ?_⟩
  · rw [hres]; simp
  · rw [hres, hone]
    have : ∀ r ∈ List.replicate n
        (InterceptResult.mk FinalOutcome.authFailure true true),
        (fun r => r.callbackInvoked) r = true := by
      intro r hr
      rw [List.eq_of_mem_replicate hr]
    calc (List.replicate n (InterceptResult.mk FinalOutcome.authFailure true true)).countP
          (fun r => r.callbackInvoked)
        = (List.replicate n (InterceptResult.mk FinalOutcome.authFailure true true)).length :=
          List.countP_eq_length.mpr this
      _ = n := List.length_replicate n _
  · intro r hr
    rw [hres, hone] at hr
    exact List.eq_of_mem_replicate hr

/-- Witness for C2's amended theorem at `n = 3`. -/
theorem error_callback_per_request_witness :
    (concurrent401s 3 (Outcome.failure "boom") true).1 = 1 ∧
    (concurrent401s 3 (Outcome.failure "boom") true).2.countP
      (fun r => r.callbackInvoked) = 3 := by
  obtain ⟨h1, _, h3, _⟩ := error_callback_per_request 3 (by decide) "boom"
  exact ⟨h1, h3⟩

/-- C3 counterexample. A 401 on a request already carrying the `_retry` mark
(and with a renewal credential present and a callback configured) is not
handled terminally: the handler rejects with the raw error, clears nothing
and invokes no callback — contradicting the claim that this case clears the
store, fires the callback, and fails with the terminal error. -/
theorem terminal_handling_counterexample :
    interceptOne ⟨some 401, true, true⟩ (Outcome.failure "boom") true =
      ⟨FinalOutcome.rawError, false, false⟩ ∧
    ¬ ((interceptOne ⟨some 401, true, true⟩ (Outcome.failure "boom") true).outcome =
        FinalOutcome.authFailure) := by
  decide

/-- C3 (amended). Terminal handling happens only in the renewal-failure case:
on a 401 that is not yet retried and has a renewal credential present, a
failed renewal attempt clears the stored credentials, invokes the configured
callback when present, and fails the call with the terminal authentication
error (not the raw error). When the request was already retried or no renewal
credential is present, the original raw error is propagated unchanged, with
no clearing and no callback. -/
theorem terminal_handling_amended (e : String) (hc : Bool) (st : Option Nat)
    (rt rf : Bool) :
    interceptOne ⟨some 401, false, true⟩ (Outcome.failure e) hc =
      ⟨FinalOutcome.authFailure, true, hc⟩ ∧
    (rt = true ∨ rf = false →
      interceptOne ⟨st, rt, rf⟩ (Outcome.failure e) hc =
        ⟨FinalOutcome.rawError, false, false⟩) := by
  refine ⟨rfl, ?_⟩
  rintro (h | h) <;> subst h <;> simp [interceptOne, interceptDecision]

/-- Witness for C3's amended theorem: a failed renewal on a fresh 401 is
terminal; an already-retried 401 propagates the raw error. -/
theorem terminal_handling_amended_witness :
    interceptOne ⟨some 401, false, true⟩ (Outcome.failure "E") true =
      ⟨FinalOutcome.authFailure, true, true⟩ ∧
    interceptOne ⟨some 401, true, true⟩ (Outcome.failure "E") true =
      ⟨FinalOutcome.rawError, false, false⟩ :=
  ⟨(terminal_handling_amended "E" true (some 401) true true).1,
   (terminal_handling_amended "E" true (some 401) true true).2 (Or.inl rfl)⟩

/-- C6 (confirmed). When a successful renewal response carries no new renewal
token, only the access credential changes: `getAccessToken` returns the new
token while `getRefreshToken` is unchanged. When it carries a (truthy,
i.e. nonempty) new renewal token, both are updated. -/
theorem rotate_access_only (st : KVStore) (a r : String) :
    (getAccessToken (applyRefreshResponse st a none) = some a ∧
     getRefreshToken (applyRefreshResponse st a none) = getRefreshToken st) ∧
    (r ≠ "" →
      getAccessToken (applyRefreshResponse st a (some r)) = some a ∧
      getRefreshToken (applyRefreshResponse st a (some r)) = some r) := by
  have hkeys : (REFRESH_TOKEN_KEY == ACCESS_TOKEN_KEY) = false := by decide
  have hAA : (ACCESS_TOKEN_KEY == ACCESS_TOKEN_KEY) = true := by decide
  have hRR : (REFRESH_TOKEN_KEY == REFRESH_TOKEN_KEY) = true := by decide
  have hAR : (ACCESS_TOKEN_KEY == REFRESH_TOKEN_KEY) = false := by decide
  constructor
  · constructor <;>
      simp [applyRefreshResponse, jsTruthy, setAccessToken, getAccessToken,
        getRefreshToken, kvSet, hkeys, hAA]
  · intro hr
    have hrb : (r == "") = false := by
      simpa using hr
    constructor <;>
      simp [applyRefreshResponse, jsTruthy, hrb, setTokens, getAccessToken,
        getRefreshToken, kvSet, hkeys, hAA, hRR, hAR]

/-- Witness for C6 on a store holding the pair A1/R1: renewing to A2 without
a new renewal token keeps R1; renewing with R2 updates both. -/
theorem rotate_access_only_witness :
    getAccessToken (applyRefreshResponse (setTokens kvEmpty "A1" "R1") "A2" none) =
      some "A2" ∧
    getRefreshToken (applyRefreshResponse (setTokens kvEmpty "A1" "R1") "A2" none) =
      getRefreshToken (setTokens kvEmpty "A1" "R1") ∧
    getRefreshToken
        (applyRefreshResponse (setTokens kvEmpty "A1" "R1") "A2" (some "R2")) =
      some "R2" :=
  ⟨(rotate_access_only (setTokens kvEmpty "A1" "R1") "A2" "R2").1.1,
   (rotate_access_only (setTokens kvEmpty "A1" "R1") "A2" "R2").1.2,
   ((rotate_access_only (setTokens kvEmpty "A1" "R1") "A2" "R2").2 (by decide)).2⟩

/-- A backend holding the old pair whose write to the refresh key throws a
`StorageError` while the access key still writes fine. -/
def failRefreshBackend : FStore :=
  ⟨setTokens kvEmpty "oldA" "oldR", fun k => k == REFRESH_TOKEN_KEY⟩

/-- C7 counterexample. `setTokens` is not atomic under a failing backend
write: when the access write succeeds and the refresh write throws, the call
fails (the error propagates) yet the store afterwards holds the new access
token next to the old renewal token — an observer sees exactly one of the
two credentials written. -/
theorem setTokens_atomic_counterexample :
    (setTokensF failRefreshBackend "newA" "newR").2 = false ∧
    getAccessToken (setTokensF failRefreshBackend "newA" "newR").1.data =
      some "newA" ∧
    getRefreshToken (setTokensF failRefreshBackend "newA" "newR").1.data =
      some "oldR" := by
  refine ⟨rfl, ?_, ?_⟩ <;> decide

/-- C7 (amended). `setTokens` performs two sequential backend writes, access
first. When neither write throws, both new values are stored. But when the
access write succeeds and the refresh write throws a `StorageError`, the call
fails with the store holding the new access token and the unchanged old
renewal token — the partial pair is observable, so atomicity holds only for
executions in which no write fails. -/
theorem setTokens_partial_write (st : FStore) (a r : String)
    (hA : st.failSet ACCESS_TOKEN_KEY = false) :
    (st.failSet REFRESH_TOKEN_KEY = false →
      (setTokensF st a r).2 = true ∧
      getAccessToken (setTokensF st a r).1.data = some a ∧
      getRefreshToken (setTokensF st a r).1.data = some r) ∧
    (st.failSet REFRESH_TOKEN_KEY = true →
      (setTokensF st a r).2 = false ∧
      getAccessToken (setTokensF st a r).1.data = some a ∧
      getRefreshToken (setTokensF st a r).1.data = getRefreshToken st.data) := by
  have hAA : (ACCESS_TOKEN_KEY == ACCESS_TOKEN_KEY) = true := by decide
  have hRR : (REFRESH_TOKEN_KEY == REFRESH_TOKEN_KEY) = true := by decide
  have hRA : (REFRESH_TOKEN_KEY == ACCESS_TOKEN_KEY) = false := by decide
  have hAR : (ACCESS_TOKEN_KEY == REFRESH_TOKEN_KEY) = false := by decide
  constructor <;> intro hR <;>
    refine ⟨?_, ?_, ?_⟩ <;>
      simp [setTokensF, fSet, hA, hR, getAccessToken, getRefreshToken, kvSet,
        hAA, hRR, hRA, hAR]

/-- Witness for C7's amended theorem: on a backend with no failing writes the
pair lands whole; on `failRefreshBackend` the partial write is observable. -/
theorem setTokens_partial_write_witness :
    getAccessToken (setTokensF ⟨kvEmpty, fun _ => false⟩ "A1" "R1").1.data =
      some "A1" ∧
    getRefreshToken (setTokensF ⟨kvEmpty, fun _ => false⟩ "A1" "R1").1.data =
      some "R1" ∧
    getRefreshToken (setTokensF failRefreshBackend "newA" "newR").1.data =
      getRefreshToken failRefreshBackend.data :=
  ⟨((setTokens_partial_write ⟨kvEmpty, fun _ => false⟩ "A1" "R1" rfl).1 rfl).2.1,
   ((setTokens_partial_write ⟨kvEmpty, fun _ => false⟩ "A1" "R1" rfl).1 rfl).2.2,
   ((setTokens_partial_write failRefreshBackend "newA" "newR" (by decide)).2
      (by decide)).2.2⟩

/-- C8 (confirmed). `logout` is synchronous and issues no network effect, and
afterwards the store holds neither credential, the identity and the stored
error are cleared, and the session is unauthenticated. -/
theorem logout_clears_session (s : Session) :
    (logout s).2 = [] ∧
    getAccessToken (logout s).1.store = none ∧
    getRefreshToken (logout s).1.store = none ∧
    (logout s).1.user = none ∧
    (logout s).1.error = none ∧
    isAuthenticated (logout s).1 = false ∧
    hasTokens (logout s).1.store = false := by
  have hAA : (ACCESS_TOKEN_KEY == ACCESS_TOKEN_KEY) = true := by decide
  have hRR : (REFRESH_TOKEN_KEY == REFRESH_TOKEN_KEY) = true := by decide
  have hAR : (ACCESS_TOKEN_KEY == REFRESH_TOKEN_KEY) = false := by decide
  refine ⟨rfl, ?_, ?_, rfl, rfl, ?_, ?_⟩ <;>
    simp [logout, isAuthenticated, hasTokens, getAccessToken, getRefreshToken,
      clearTokens, kvClear, jsTruthy, hAA, hRR, hAR]

/-- C9 (confirmed). When either stored token is the empty string — a non-null
value from the backend — `hasTokens()` is false by JS truthiness, so the init
path leaves the user `null` and the session initializes unauthenticated. -/
theorem empty_token_unauthenticated (st : KVStore)
    (h : getAccessToken st = some "" ∨ getRefreshToken st = some "") :
    hasTokens st = false ∧
    initAuthUser st = none ∧
    isAuthenticated ⟨st, initAuthUser st, none⟩ = false := by
  have hf : hasTokens st = false := by
    rcases h with h | h <;> simp [hasTokens, jsTruthy, h]
  have hu : initAuthUser st = none := by
    simp [initAuthUser, hf]
  exact ⟨hf, hu, by simp [isAuthenticated, hu]⟩

/-- Witness for C9 at a store persisting the pair (empty string, "R1"): the
backend returns non-null values for both keys, yet the session comes up
unauthenticated. -/
theorem empty_token_unauthenticated_witness :
    hasTokens (setTokens kvEmpty "" "R1") = false ∧
    initAuthUser (setTokens kvEmpty "" "R1") = none :=
  ⟨(empty_token_unauthenticated (setTokens kvEmpty "" "R1")
      (Or.inl (by decide))).1,
   (empty_token_unauthenticated (setTokens kvEmpty "" "R1")
      (Or.inl (by decide))).2.1⟩

end JustAuth
